import Mathlib

/-!
A shallow embedding of the analytics core of the `geraship` dashboard
(position records, derived-price calculators, wallet/asset aggregation,
pattern detection, the recommendation scorer, and the portfolio risk
metrics), together with theorems settling the specification claims.

Numeric values are modelled as rationals; where a JavaScript computation
can produce `Infinity` or `NaN` (division by zero, `Math.max()` of an
empty spread) the embedding uses the extended type `EJ` which represents
those values explicitly.  Timestamps are modelled as integer epoch
milliseconds.  `Math.sqrt` is modelled by an oracle parameter
`sqrtQ : ℚ → ℚ` supplied to the functions that need it.
-/

/-- A position record, as consumed by the dashboards.  Every field except
`id` is optional in the source data. -/
structure Position where
  id : ℕ := 0
  asset : Option String := none
  size : Option ℚ := none
  entry_price : Option ℚ := none
  leverage : Option ℚ := none
  is_long : Option Bool := none
  pnl : Option ℚ := none
  pnl_percentage : Option ℚ := none
  status : Option String := none
  created_at : Option ℤ := none
  updated_at : Option ℤ := none
  address : Option String := none
deriving DecidableEq, Repr

/-- JavaScript falsiness of an optional number: `undefined` and `0` are falsy. -/
def jsFalsyQ (o : Option ℚ) : Bool :=
  match o with
  | none => true
  | some q => q = 0

/-- JavaScript truthiness of an optional boolean: only `true` is truthy. -/
def jsTruthyB (o : Option Bool) : Bool :=
  o = some true

/-- JavaScript truthiness of an optional string: `undefined` and `""` are falsy. -/
def jsTruthyS (o : Option String) : Bool :=
  match o with
  | none => false
  | some s => s ≠ ""

/-- JavaScript truthiness of an optional integer timestamp. -/
def jsTruthyI (o : Option ℤ) : Bool :=
  match o with
  | none => false
  | some n => n ≠ 0

/-- `x ?? 0` / `x || 0` on an optional numeric field. -/
def getD0 (o : Option ℚ) : ℚ :=
  o.getD 0

/-- `Math.round`: round half toward positive infinity, as JavaScript does. -/
def jsRound (q : ℚ) : ℤ :=
  ⌊q + 1/2⌋

/-- Extended JavaScript number: a finite rational, `Infinity`, `-Infinity`
or `NaN`. -/
inductive EJ where
  | fin (q : ℚ)
  | inf
  | ninf
  | nan
deriving DecidableEq, Repr

/-- JavaScript addition on extended numbers. -/
def ejAdd : EJ → EJ → EJ
  | .nan, _ => .nan
  | _, .nan => .nan
  | .inf, .ninf => .nan
  | .ninf, .inf => .nan
  | .inf, _ => .inf
  | _, .inf => .inf
  | .ninf, _ => .ninf
  | _, .ninf => .ninf
  | .fin a, .fin b => .fin (a + b)

/-- JavaScript negation on extended numbers. -/
def ejNeg : EJ → EJ
  | .nan => .nan
  | .inf => .ninf
  | .ninf => .inf
  | .fin a => .fin (-a)

/-- JavaScript subtraction on extended numbers. -/
def ejSub (a b : EJ) : EJ :=
  ejAdd a (ejNeg b)

/-- JavaScript multiplication on extended numbers. -/
def ejMul : EJ → EJ → EJ
  | .nan, _ => .nan
  | _, .nan => .nan
  | .inf, .inf => .inf
  | .inf, .ninf => .ninf
  | .ninf, .inf => .ninf
  | .ninf, .ninf => .inf
  | .inf, .fin b => if b > 0 then .inf else if b < 0 then .ninf else .nan
  | .fin a, .inf => if a > 0 then .inf else if a < 0 then .ninf else .nan
  | .ninf, .fin b => if b > 0 then .ninf else if b < 0 then .inf else .nan
  | .fin a, .ninf => if a > 0 then .ninf else if a < 0 then .inf else .nan
  | .fin a, .fin b => .fin (a * b)

/-- JavaScript division on extended numbers.  A zero denominator is the
positive zero (the only way zero denominators arise in this code is via
`Math.abs` or literal accumulators), so `x / 0` is `Infinity` for
positive `x`, `-Infinity` for negative `x` and `NaN` for `x = 0`. -/
def ejDiv : EJ → EJ → EJ
  | .nan, _ => .nan
  | _, .nan => .nan
  | .inf, .inf => .nan
  | .inf, .ninf => .nan
  | .ninf, .inf => .nan
  | .ninf, .ninf => .nan
  | .inf, .fin b => if b ≥ 0 then .inf else .ninf
  | .ninf, .fin b => if b ≥ 0 then .ninf else .inf
  | .fin _, .inf => .fin 0
  | .fin _, .ninf => .fin 0
  | .fin a, .fin b =>
      if b = 0 then (if a = 0 then .nan else if a > 0 then .inf else .ninf)
      else .fin (a / b)

/-- `Math.min` on extended numbers (`NaN` propagates). -/
def ejMin : EJ → EJ → EJ
  | .nan, _ => .nan
  | _, .nan => .nan
  | .ninf, _ => .ninf
  | _, .ninf => .ninf
  | .inf, b => b
  | a, .inf => a
  | .fin a, .fin b => .fin (min a b)

/-- `Math.max` on extended numbers (`NaN` propagates). -/
def ejMax : EJ → EJ → EJ
  | .nan, _ => .nan
  | _, .nan => .nan
  | .inf, _ => .inf
  | _, .inf => .inf
  | .ninf, b => b
  | a, .ninf => a
  | .fin a, .fin b => .fin (max a b)

/-- `Math.abs` on extended numbers. -/
def ejAbs : EJ → EJ
  | .nan => .nan
  | .inf => .inf
  | .ninf => .inf
  | .fin a => .fin |a|

/-- `Math.sqrt` on extended numbers, with the finite non-negative case
delegated to the oracle `sqrtQ`. -/
def ejSqrt (sqrtQ : ℚ → ℚ) : EJ → EJ
  | .nan => .nan
  | .ninf => .nan
  | .inf => .inf
  | .fin a => if a < 0 then .nan else .fin (sqrtQ a)

/-- `x || 0`: replaces `NaN` (and the zero itself) by `0`; infinities are
truthy and survive. -/
def ejOrZero : EJ → EJ
  | .nan => .fin 0
  | .fin a => .fin a
  | .inf => .inf
  | .ninf => .ninf

/-- Strict `>` on extended numbers; any comparison involving `NaN` is false. -/
def ejBgt : EJ → EJ → Bool
  | .nan, _ => false
  | _, .nan => false
  | .inf, .inf => false
  | .inf, _ => true
  | _, .inf => false
  | .ninf, _ => false
  | .fin _, .ninf => true
  | .fin a, .fin b => a > b

/-- `Math.max(...xs)`: the spread of an empty array gives `-Infinity`. -/
def ejMaxList (l : List EJ) : EJ :=
  l.foldl ejMax .ninf

/-- `calculateCurrentPrice` as written (identically) in both dashboard
variants: reconstructs the current price from margin, leverage, entry
price and PnL; `null` when a required field is missing or zero. -/
def calculateCurrentPrice (position : Position) : Option ℚ :=
  if jsFalsyQ position.entry_price ∨ position.pnl = none ∨
      jsFalsyQ position.size ∨ jsFalsyQ position.leverage then
    none
  else
    let entryPrice := getD0 position.entry_price
    let leverage := getD0 position.leverage
    let initialValue := |getD0 position.size * entryPrice| / leverage
    let returnPercentage := getD0 position.pnl / initialValue
    some (if jsTruthyB position.is_long then
            entryPrice * (1 + returnPercentage / leverage)
          else
            entryPrice * (1 - returnPercentage / leverage))

namespace part000

/-- `calculateInitialValue` of the wallets dashboard variant: margin
committed, `|size| × entry_price / leverage`. -/
def calculateInitialValue (position : Position) : Option ℚ :=
  if jsFalsyQ position.size ∨ jsFalsyQ position.entry_price ∨
      jsFalsyQ position.leverage then
    none
  else
    some (|getD0 position.size| * getD0 position.entry_price /
      getD0 position.leverage)

/-- `calculateCorrectPnlPercentage` of the wallets dashboard variant. -/
def calculateCorrectPnlPercentage (position : Position) : Option ℚ :=
  match calculateInitialValue position with
  | none => none
  | some initialValue =>
      if initialValue = 0 ∨ position.pnl = none then none
      else some (getD0 position.pnl / initialValue * 100)

end part000

namespace part002

/-- `calculateInitialValue` of the positions dashboard variant: written
without the absolute value, `size × entry_price / leverage`. -/
def calculateInitialValue (position : Position) : Option ℚ :=
  if jsFalsyQ position.size ∨ jsFalsyQ position.entry_price ∨
      jsFalsyQ position.leverage then
    none
  else
    some (getD0 position.size * getD0 position.entry_price /
      getD0 position.leverage)

/-- `calculateCorrectPnlPercentage` of the positions dashboard variant. -/
def calculateCorrectPnlPercentage (position : Position) : Option ℚ :=
  match calculateInitialValue position with
  | none => none
  | some initialValue =>
      if initialValue = 0 ∨ position.pnl = none then none
      else some (getD0 position.pnl / initialValue * 100)

end part002

/-- Per-wallet accumulator of the wallets dashboard (`walletData`). -/
structure WalletSummary where
  address : String
  rating : String := "C"
  winRate : ℚ := 0
  totalPnL : ℚ := 0
  activePositions : ℕ := 0
  lastTrade : Option ℤ := none
  riskScore : ℚ := 50
  totalTrades : ℕ := 0
  winningTrades : ℕ := 0
  losingTrades : ℕ := 0
  avgPnL : ℚ := 0
  closedTrades : ℕ := 0
  closedTradePnL : ℚ := 0
deriving DecidableEq, Repr

/-- Replace the value of the first-inserted entry with key `k`, or append
a new entry: models `Map.set` on a JavaScript `Map`, which preserves
insertion order. -/
def mapSet {α : Type} (l : List (String × α)) (k : String) (v : α) :
    List (String × α) :=
  if l.any (fun kv => kv.1 = k) then
    l.map (fun kv => if kv.1 = k then (k, v) else kv)
  else
    l ++ [(k, v)]

/-- `Map.get` on the association-list model of a JavaScript `Map`. -/
def mapGet {α : Type} (l : List (String × α)) (k : String) : Option α :=
  (l.find? (fun kv => kv.1 = k)).map (fun kv => kv.2)

/-- One step of the `walletData` grouping pass. -/
def walletStep (m : List (String × WalletSummary)) (position : Position) :
    List (String × WalletSummary) :=
  if ¬ jsTruthyS position.address then m
  else
    let address := position.address.getD ""
    let existing := (mapGet m address).getD { address := address }
    let existing :=
      { existing with
        totalTrades := existing.totalTrades + 1
        totalPnL := existing.totalPnL + getD0 position.pnl
        winningTrades :=
          if getD0 position.pnl > 0 then existing.winningTrades + 1
          else existing.winningTrades
        losingTrades :=
          if getD0 position.pnl < 0 then existing.losingTrades + 1
          else existing.losingTrades
        activePositions :=
          if position.status = some "active" then existing.activePositions + 1
          else existing.activePositions
        closedTrades :=
          if position.status ≠ some "active" ∧ position.status = some "closed"
          then existing.closedTrades + 1 else existing.closedTrades
        closedTradePnL :=
          if position.status ≠ some "active" ∧ position.status = some "closed"
          then existing.closedTradePnL + getD0 position.pnl
          else existing.closedTradePnL
        lastTrade :=
          match position.updated_at, existing.lastTrade with
          | some u, none => some u
          | some u, some t => if u > t then some u else some t
          | none, t => t }
    mapSet m address existing

/-- The wallet rating rule: ordered, first match wins. -/
def walletRating (winRate totalPnL : ℚ) : String :=
  if winRate ≥ 80 ∧ totalPnL > 10000 then "A"
  else if winRate ≥ 70 ∧ totalPnL > 5000 then "B"
  else if winRate ≥ 60 ∧ totalPnL > 0 then "C"
  else if winRate ≥ 40 then "D"
  else "F"

/-- The second pass of `walletData`: derived ratios, rating and risk score. -/
def walletFinalize (wallet : WalletSummary) : WalletSummary :=
  let winRate :=
    if wallet.totalTrades > 0 then
      ((wallet.winningTrades : ℚ) / wallet.totalTrades) * 100
    else 0
  let avgPnL :=
    if wallet.totalTrades > 0 then wallet.totalPnL / wallet.totalTrades else 0
  let volatility := |avgPnL| / max wallet.totalPnL 1
  { wallet with
    winRate := winRate
    avgPnL := avgPnL
    rating := walletRating winRate wallet.totalPnL
    riskScore := min 100 (max 0 (50 + volatility * 30 - winRate * (3/10))) }

/-- `walletData`: group positions by wallet address, then compute the
derived per-wallet metrics. -/
def walletData (allPositions : List Position) : List WalletSummary :=
  ((allPositions.foldl walletStep []).map (fun kv => kv.2)).map walletFinalize

/-- Per-asset accumulator and summary of the analytics pass (`assetMap` /
`assetAnalysis`).  Only the fields the analytics pipeline consumes
downstream are modelled; presentation-only derived fields are omitted. -/
structure AssetSummary where
  asset : String
  longCount : ℕ := 0
  shortCount : ℕ := 0
  totalPnL : ℚ := 0
  avgEntryPrice : ℚ := 0
  totalVolume : ℚ := 0
  positions : List Position := []
  winRate : ℚ := 0
  avgLeverage : ℚ := 0
  maxDrawdown : EJ := .fin 0
  sentiment : String := ""
  totalPositions : ℕ := 0
deriving DecidableEq, Repr

/-- The accumulator update of the `assetMap` grouping pass: a truthy
`is_long` counts as long, anything else (including an absent field) as
short. -/
def assetAccUpdate (existing : AssetSummary) (position : Position) :
    AssetSummary :=
  { existing with
    positions := existing.positions ++ [position]
    totalPnL := existing.totalPnL + getD0 position.pnl
    totalVolume := existing.totalVolume + getD0 position.size
    longCount :=
      if jsTruthyB position.is_long then existing.longCount + 1
      else existing.longCount
    shortCount :=
      if jsTruthyB position.is_long then existing.shortCount
      else existing.shortCount + 1 }

/-- One step of the `assetMap` grouping pass: skip positions without a
truthy asset symbol, otherwise update the accumulator under the asset
key. -/
def assetStep (m : List (String × AssetSummary)) (position : Position) :
    List (String × AssetSummary) :=
  if ¬ jsTruthyS position.asset then m
  else
    let asset := position.asset.getD ""
    mapSet m asset
      (assetAccUpdate ((mapGet m asset).getD { asset := asset }) position)

/-- The `assetMap` grouping pass over the whole position sequence. -/
def assetMapFold (allPositions : List Position) :
    List (String × AssetSummary) :=
  allPositions.foldl assetStep []

/-- One step of the per-asset max-drawdown walk, exactly as coded:
`drawdown = ((peak - runningPnL) / Math.abs(peak)) * 100` with **no**
guard for a zero peak.  State is `(peak, runningPnL, maxDD)`. -/
def maxDrawdownStep (st : ℚ × ℚ × EJ) (pnl : ℚ) : ℚ × ℚ × EJ :=
  let runningPnL := st.2.1 + pnl
  let peak := if runningPnL > st.1 then runningPnL else st.1
  let drawdown := ejMul (ejDiv (.fin (peak - runningPnL)) (.fin |peak|)) (.fin 100)
  let maxDD := if ejBgt drawdown st.2.2 then drawdown else st.2.2
  (peak, runningPnL, maxDD)

/-- The per-asset max-drawdown walk over the asset's positions in order. -/
def assetMaxDrawdown (pnls : List ℚ) : EJ :=
  (pnls.foldl maxDrawdownStep (0, 0, .fin 0)).2.2

/-- The per-asset finalizer of `assetAnalysis`: average entry price,
sentiment (ties resolve to bearish), win rate, average leverage and the
max-drawdown walk. -/
def assetFinalize (asset : AssetSummary) : AssetSummary :=
  let entryPrices := (asset.positions.map (fun p => p.entry_price)).reduceOption
  let avgEntryPrice :=
    if entryPrices.length > 0 then entryPrices.sum / entryPrices.length else 0
  let assetPnLs := asset.positions.map (fun p => getD0 p.pnl)
  let winningTrades := (assetPnLs.filter (fun pnl => pnl > 0)).length
  let winRate := ((winningTrades : ℚ) / asset.positions.length) * 100
  let leverages :=
    (asset.positions.map (fun p => getD0 p.leverage)).filter (fun l => l > 0)
  let avgLeverage :=
    if leverages.length > 0 then leverages.sum / leverages.length else 0
  { asset with
    avgEntryPrice := avgEntryPrice
    sentiment := if asset.longCount > asset.shortCount then "bullish" else "bearish"
    totalPositions := asset.longCount + asset.shortCount
    winRate := winRate
    avgLeverage := avgLeverage
    maxDrawdown := assetMaxDrawdown assetPnLs }

/-- `assetAnalysis`: the finalized asset summaries, sorted descending by
total position count.  JavaScript's `Array.sort` is a stable sort, and a
stable sort under a consistent comparator is unique, so any stable sort
models it; insertion sort is used because it evaluates by reduction. -/
def assetAnalysisOf (allPositions : List Position) : List AssetSummary :=
  (((assetMapFold allPositions).map (fun kv => kv.2)).map assetFinalize).insertionSort
    (fun a b => b.totalPositions ≤ a.totalPositions)

/-- Snapshot-level long count: only `is_long === true` positions. -/
def longPositionsCount (allPositions : List Position) : ℕ :=
  (allPositions.filter (fun p => p.is_long = some true)).length

/-- Snapshot-level short count: only `is_long === false` positions. -/
def shortPositionsCount (allPositions : List Position) : ℕ :=
  (allPositions.filter (fun p => p.is_long = some false)).length

/-- `bullishPercentage` over the whole (non-empty) snapshot. -/
def bullishPercentage (allPositions : List Position) : ℚ :=
  ((longPositionsCount allPositions : ℚ) / allPositions.length) * 100

/-- `bearishPercentage` over the whole (non-empty) snapshot. -/
def bearishPercentage (allPositions : List Position) : ℚ :=
  ((shortPositionsCount allPositions : ℚ) / allPositions.length) * 100

/-- Snapshot-level market sentiment label. -/
def sentimentOf (allPositions : List Position) : String :=
  if bullishPercentage allPositions > 60 then "bullish"
  else if bearishPercentage allPositions > 60 then "bearish"
  else "neutral"

/-- The non-zero PnL values of the snapshot. -/
def pnlValuesOf (allPositions : List Position) : List ℚ :=
  (allPositions.map (fun p => getD0 p.pnl)).filter (fun pnl => pnl ≠ 0)

/-- `avgPnL` of the sentiment block: the mean of the non-zero PnL values
(`NaN` when there are none, as in the source). -/
def sentimentAvgPnL (allPositions : List Position) : EJ :=
  let pnlValues := pnlValuesOf allPositions
  ejDiv (.fin pnlValues.sum) (.fin pnlValues.length)

/-- `volatility` of the sentiment block:
`(Math.sqrt(pnlVariance) / Math.abs(avgPnL)) * 100 || 0`. -/
def sentimentVolatility (sqrtQ : ℚ → ℚ) (allPositions : List Position) : EJ :=
  let pnlValues := pnlValuesOf allPositions
  let avgPnL := sentimentAvgPnL allPositions
  let pnlVariance :=
    ejDiv
      (pnlValues.foldl
        (fun sum pnl =>
          ejAdd sum (ejMul (ejSub (.fin pnl) avgPnL) (ejSub (.fin pnl) avgPnL)))
        (.fin 0))
      (.fin pnlValues.length)
  ejOrZero (ejMul (ejDiv (ejSqrt sqrtQ pnlVariance) (ejAbs avgPnL)) (.fin 100))

/-- A detected pattern record (type label, match count, significance). -/
structure Pattern where
  type : String
  count : ℕ
  significance : String
deriving DecidableEq, Repr

/-- The fixed allow-list of major coin symbols owned by the pattern
detector. -/
def mainCoins : List String :=
  ["BTC", "ETH", "USDT", "BNB", "SOL", "XRP", "USDC", "ADA", "AVAX", "DOGE",
   "TRX", "DOT", "MATIC", "LTC", "SHIB", "BCH", "NEAR", "UNI", "ATOM", "FTM",
   "LINK", "APT", "ICP", "FIL", "ARB", "VET", "MKR", "AAVE", "GRT", "SAND"]

/-- ASCII upper-casing of one character (`toUpperCase` on the ASCII asset
symbols this code handles). -/
def jsToUpperChar (c : Char) : Char :=
  if 97 ≤ c.toNat ∧ c.toNat ≤ 122 then Char.ofNat (c.toNat - 32) else c

/-- `isMainCoin`: case-insensitive substring match against the allow-list. -/
def isMainCoin (asset : String) : Bool :=
  mainCoins.any (fun coin => decide (coin.data <:+: asset.data.map jsToUpperChar))

/-- A rule of the pattern battery: emit one pattern record when at least
one position matches. -/
def patternRule (matching : List Position) (type : String)
    (significance : String) : List Pattern :=
  if matching.length > 0 then
    [{ type := type, count := matching.length, significance := significance }]
  else []

/-- The ordered battery of "unusual" pattern rules, with the exact
thresholds and type labels of the source. -/
def unusualPatternsOf (currentTime : ℤ) (allPositions : List Position) :
    List Pattern :=
  let sentiment := sentimentOf allPositions
  let highConfidenceRandomCoins := allPositions.filter (fun p =>
    jsTruthyS p.asset ∧ ¬ isMainCoin (p.asset.getD "") ∧
      (getD0 p.leverage > 30 ∨ (getD0 p.size > 500000 ∨ |getD0 p.pnl| > 25000)))
  let ultraHighLeverage := allPositions.filter (fun p => getD0 p.leverage > 75)
  let largeBetsRandomCoins := allPositions.filter (fun p =>
    getD0 p.size > 1000000 ∧ jsTruthyS p.asset ∧ ¬ isMainCoin (p.asset.getD ""))
  let perfectTimingRandomCoins := allPositions.filter (fun p =>
    jsTruthyI p.created_at ∧ jsTruthyS p.asset ∧
      p.created_at.getD 0 > currentTime - 14 * 24 * 60 * 60 * 1000 ∧
      getD0 p.pnl > 10000 ∧ ¬ isMainCoin (p.asset.getD ""))
  let highPnLLowEntry := allPositions.filter (fun p =>
    getD0 p.pnl > 10000 ∧ getD0 p.entry_price < 100)
  let extremeLeverage := allPositions.filter (fun p => getD0 p.leverage > 50)
  let whalePositions := allPositions.filter (fun p => getD0 p.size > 1000000)
  let perfectTiming := allPositions.filter (fun p =>
    jsTruthyI p.created_at ∧
      p.created_at.getD 0 > currentTime - 7 * 24 * 60 * 60 * 1000 ∧
      getD0 p.pnl > 5000)
  let contrarian := allPositions.filter (fun p =>
    ((sentiment = "bullish" ∧ ¬ jsTruthyB p.is_long) ∨
      (sentiment = "bearish" ∧ jsTruthyB p.is_long)) ∧ getD0 p.pnl > 1000)
  patternRule highConfidenceRandomCoins "High Confidence Bets on Obscure Coins" "high" ++
  patternRule ultraHighLeverage "Ultra High Leverage Trading (>75x)" "high" ++
  patternRule largeBetsRandomCoins "Million Dollar Bets on Obscure Coins" "high" ++
  patternRule perfectTimingRandomCoins "Perfect Timing on Obscure Coins" "high" ++
  patternRule highPnLLowEntry "High PnL with Low Entry Price" "high" ++
  patternRule extremeLeverage "Extreme Leverage Trading" "high" ++
  patternRule whalePositions "Whale Activity" "high" ++
  patternRule perfectTiming "Perfect Market Timing" "high" ++
  patternRule contrarian "Successful Contrarian Plays" "medium"

/-- The two "usual" patterns, always emitted (even with count 0). -/
def usualPatternsOf (allPositions : List Position) : List Pattern :=
  let sentiment := sentimentOf allPositions
  let moderateLeverage := allPositions.filter (fun p =>
    getD0 p.leverage ≥ 5 ∧ getD0 p.leverage ≤ 20)
  let followTrend := allPositions.filter (fun p =>
    (sentiment = "bullish" ∧ jsTruthyB p.is_long) ∨
      (sentiment = "bearish" ∧ ¬ jsTruthyB p.is_long))
  [{ type := "Moderate Leverage Usage", count := moderateLeverage.length,
     significance := "medium" },
   { type := "Trend Following", count := followTrend.length,
     significance := "low" }]

/-- A weighted bullish/bearish signal of the recommendation scorer. -/
structure Signal where
  type : String
  strength : ℚ
deriving DecidableEq, Repr

/-- The signal battery of `generateAIRecommendation`, in source order:
win rate, smart-money P&L, direction share, volume, leverage, entry
price and position count. -/
def recommendationSignals (winRate avgSmartPnL longPercentage
    shortPercentage totalVolume avgLeverage avgEntryPrice : ℚ)
    (totalPositions : ℕ) : List Signal :=
  (if winRate > 65 then [⟨"bullish", 8/10⟩]
   else if winRate < 35 then [⟨"bearish", 8/10⟩] else []) ++
  (if avgSmartPnL > 2000 then [⟨"bullish", 9/10⟩]
   else if avgSmartPnL < -2000 then [⟨"bearish", 9/10⟩] else []) ++
  (if longPercentage > 70 then [⟨"bullish", 7/10⟩]
   else if shortPercentage > 70 then [⟨"bearish", 7/10⟩] else []) ++
  (if totalVolume > 5000000 then [⟨"bullish", 6/10⟩] else []) ++
  (if avgLeverage > 25 then [⟨"bearish", 5/10⟩]
   else if avgLeverage > 0 ∧ avgLeverage < 10 then [⟨"bullish", 3/10⟩] else []) ++
  (if avgEntryPrice < 100 ∧ avgSmartPnL > 0 then [⟨"bullish", 6/10⟩] else []) ++
  (if totalPositions ≥ 10 then [⟨"bullish", 4/10⟩] else [])

/-- Sum of the strengths of the signals of a given polarity. -/
def signalScore (type : String) (signals : List Signal) : ℚ :=
  ((signals.filter (fun s => s.type = type)).map (fun s => s.strength)).sum

/-- The decision rule of `generateAIRecommendation`: the directional call
and the reported (rounded) confidence. -/
def generateAIRecommendation (winRate avgSmartPnL longPercentage
    shortPercentage totalVolume avgLeverage avgEntryPrice : ℚ)
    (totalPositions : ℕ) : String × ℤ :=
  let signals := recommendationSignals winRate avgSmartPnL longPercentage
    shortPercentage totalVolume avgLeverage avgEntryPrice totalPositions
  let bullishScore := signalScore "bullish" signals
  let bearishScore := signalScore "bearish" signals
  if bullishScore > bearishScore + 3/10 then
    ("LONG", jsRound (min ((bullishScore - bearishScore) / (5/2) * 100) 95))
  else if bearishScore > bullishScore + 3/10 then
    ("SHORT", jsRound (min ((bearishScore - bullishScore) / (5/2) * 100) 95))
  else
    ("HOLD", jsRound 40)

/-- The smart-money filter: positions whose PnL is not an extreme
outlier (`|pnl| < 50000 && pnl > -25000`). -/
def smartMoneyFilter (positions : List Position) : List Position :=
  positions.filter (fun p => |getD0 p.pnl| < 50000 ∧ getD0 p.pnl > -25000)

/-- The assets for which the analytics pass emits an AI recommendation.
In the source, the `totalPositions >= 1` push is nested inside the
`smartMoneyPositions.length >= 3` block, so both gates apply. -/
def aiRecommendationAssets (allPositions : List Position) : List String :=
  (assetAnalysisOf allPositions).filterMap (fun asset =>
    if (smartMoneyFilter asset.positions).length ≥ 3 then
      (if asset.totalPositions ≥ 1 then some asset.asset else none)
    else none)

/-- The `marketSentiment` block of the analytics result. -/
structure MarketSentiment where
  bullish : ℚ
  bearish : ℚ
  sentiment : String
  confidence : ℚ
  volatility : EJ
deriving DecidableEq, Repr

/-- The `riskMetrics` block of the analytics result. -/
structure RiskMetrics where
  highRisk : ℕ
  mediumRisk : ℕ
  lowRisk : ℤ
  riskScore : EJ
deriving DecidableEq, Repr

/-- The modelled fields of the `performanceMetrics` block. -/
structure PerformanceMetrics where
  totalPnL : ℚ
  winRate : ℚ
  avgPnL : EJ
  totalVolume : ℚ
  activePositions : ℕ
  closedPositions : ℕ
  sharpeRatio : ℚ
  maxDrawdown : ℚ
  profitFactor : ℚ
  avgHoldingTime : ℚ
deriving DecidableEq, Repr

/-- `riskMetrics`: risk counts and the four-factor composite risk score.
Note the divide-by-zero guard on `concentrationRisk` has no counterpart
on `drawdownRisk`, whose `Math.max` spread of an empty array is
`-Infinity`. -/
def riskMetricsOf (sqrtQ : ℚ → ℚ) (allPositions : List Position) :
    RiskMetrics :=
  let highRisk := (allPositions.filter (fun p =>
    getD0 p.leverage > 25 ∨ |getD0 p.pnl| > 50000)).length
  let mediumRisk := (allPositions.filter (fun p =>
    (getD0 p.leverage ≥ 10 ∧ getD0 p.leverage ≤ 25) ∨
      (|getD0 p.pnl| ≥ 10000 ∧ |getD0 p.pnl| ≤ 50000))).length
  let assetAnalysis := assetAnalysisOf allPositions
  let highLeverageRatio :=
    ejMul (ejDiv (.fin highRisk) (.fin allPositions.length)) (.fin 40)
  let concentrationRisk :=
    match assetAnalysis with
    | [] => EJ.fin 0
    | top :: _ =>
        ejMul (ejDiv (.fin top.totalPositions) (.fin allPositions.length)) (.fin 30)
  let volatilityRisk :=
    ejMin (ejDiv (sentimentVolatility sqrtQ allPositions) (.fin 10)) (.fin 20)
  let drawdownRisk :=
    ejMin (ejDiv (ejMaxList (assetAnalysis.map (fun a => a.maxDrawdown))) (.fin 5))
      (.fin 10)
  { highRisk := highRisk
    mediumRisk := mediumRisk
    lowRisk := (allPositions.length : ℤ) - highRisk - mediumRisk
    riskScore :=
      ejAdd (ejAdd (ejAdd highLeverageRatio concentrationRisk) volatilityRisk)
        drawdownRisk }

/-- The portfolio-level max-drawdown walk, which (unlike the per-asset
one) guards the zero peak: `peak > 0 ? ((peak - running) / peak) * 100 : 0`. -/
def portfolioMaxDrawdown (pnls : List ℚ) : ℚ :=
  (pnls.foldl
    (fun st pnl =>
      let runningPnL := st.2.1 + pnl
      let peak := if runningPnL > st.1 then runningPnL else st.1
      let drawdown := if peak > 0 then (peak - runningPnL) / peak * 100 else 0
      let maxDD := if drawdown > st.2.2 then drawdown else st.2.2
      (peak, runningPnL, maxDD))
    ((0 : ℚ), (0 : ℚ), (0 : ℚ))).2.2

/-- The modelled `performanceMetrics` of the (non-empty) analytics pass. -/
def performanceMetricsOf (sqrtQ : ℚ → ℚ) (allPositions : List Position) :
    PerformanceMetrics :=
  let returns := allPositions.map (fun p => getD0 p.pnl)
  let totalPnL := returns.sum
  let winningPositions := (returns.filter (fun pnl => pnl > 0)).length
  let winningPnL := (returns.filter (fun pnl => pnl > 0)).sum
  let losingPnL := |(returns.filter (fun pnl => pnl < 0)).sum|
  let avgReturn := totalPnL / returns.length
  let returnVariance :=
    (returns.map (fun r => (r - avgReturn) * (r - avgReturn))).sum /
      returns.length
  let returnStdDev := sqrtQ returnVariance
  let positionsWithDates := allPositions.filter (fun p =>
    jsTruthyI p.created_at ∧ jsTruthyI p.updated_at)
  { totalPnL := totalPnL
    winRate := ((winningPositions : ℚ) / allPositions.length) * 100
    avgPnL := sentimentAvgPnL allPositions
    totalVolume := (allPositions.map (fun p => getD0 p.size)).sum
    activePositions :=
      (allPositions.filter (fun p => p.status = some "active")).length
    closedPositions :=
      (allPositions.filter (fun p => p.status ≠ some "active")).length
    sharpeRatio := if returnStdDev > 0 then avgReturn / returnStdDev else 0
    maxDrawdown := portfolioMaxDrawdown returns
    profitFactor :=
      if losingPnL > 0 then winningPnL / losingPnL
      else if winningPnL > 0 then 999 else 0
    avgHoldingTime :=
      if positionsWithDates.length > 0 then
        ((positionsWithDates.map (fun p =>
          ((p.updated_at.getD 0 - p.created_at.getD 0 : ℤ) : ℚ))).sum /
          positionsWithDates.length) / (1000 * 60 * 60 * 24)
      else 0 }

/-- The modelled analytics result. -/
structure Analytics where
  marketSentiment : MarketSentiment
  assetAnalysis : List AssetSummary
  unusualPatterns : List Pattern
  usualPatterns : List Pattern
  aiRecommendations : List String
  riskMetrics : RiskMetrics
  performanceMetrics : PerformanceMetrics
deriving DecidableEq, Repr

/-- The documented empty-snapshot constants of the analytics pass. -/
def emptyAnalytics : Analytics :=
  { marketSentiment :=
      { bullish := 0, bearish := 0, sentiment := "neutral", confidence := 0,
        volatility := .fin 0 }
    assetAnalysis := []
    unusualPatterns := []
    usualPatterns := []
    aiRecommendations := []
    riskMetrics := { highRisk := 0, mediumRisk := 0, lowRisk := 0,
                     riskScore := .fin 0 }
    performanceMetrics :=
      { totalPnL := 0, winRate := 0, avgPnL := .fin 0, totalVolume := 0,
        activePositions := 0, closedPositions := 0, sharpeRatio := 0,
        maxDrawdown := 0, profitFactor := 0, avgHoldingTime := 0 } }

/-- The analytics pass: the documented constants for an empty snapshot,
otherwise the modelled aggregates. -/
def analytics (sqrtQ : ℚ → ℚ) (currentTime : ℤ)
    (allPositions : List Position) : Analytics :=
  if allPositions.length = 0 then emptyAnalytics
  else
    { marketSentiment :=
        { bullish := bullishPercentage allPositions
          bearish := bearishPercentage allPositions
          sentiment := sentimentOf allPositions
          confidence :=
            |bullishPercentage allPositions - bearishPercentage allPositions|
          volatility := sentimentVolatility sqrtQ allPositions }
      assetAnalysis := assetAnalysisOf allPositions
      unusualPatterns := unusualPatternsOf currentTime allPositions
      usualPatterns := usualPatternsOf allPositions
      aiRecommendations := aiRecommendationAssets allPositions
      riskMetrics := riskMetricsOf sqrtQ allPositions
      performanceMetrics := performanceMetricsOf sqrtQ allPositions }

/-- Claim C1: for every position whose entry price, size and leverage are
present and non-zero and whose pnl is present, `calculateCurrentPrice`
returns `entry_price × (1 ± return_percentage / leverage)` (sign by
direction), with `return_percentage = pnl / (|size × entry_price| / leverage)`. -/
theorem claim_C1_calculateCurrentPrice_formula (p : Position)
    (ep sz lev pnl : ℚ)
    (hep : p.entry_price = some ep) (hep0 : ep ≠ 0)
    (hsz : p.size = some sz) (hsz0 : sz ≠ 0)
    (hlev : p.leverage = some lev) (hlev0 : lev ≠ 0)
    (hpnl : p.pnl = some pnl) :
    calculateCurrentPrice p =
      some (if jsTruthyB p.is_long then
              ep * (1 + (pnl / (|sz * ep| / lev)) / lev)
            else
              ep * (1 - (pnl / (|sz * ep| / lev)) / lev)) := by
  simp [calculateCurrentPrice, jsFalsyQ, getD0, hep, hsz, hlev, hpnl, hep0,
    hsz0, hlev0]

/-- Witness for C1: the spec scenario `size=1000, entry_price=100,
leverage=10, is_long=true, pnl=50` yields initial value 10000, return
percentage 1/200 = 0.005 and current price 10005/100 = 100.05. -/
theorem claim_C1_witness :
    calculateCurrentPrice
      { size := some 1000, entry_price := some 100, leverage := some 10,
        is_long := some true, pnl := some 50 } = some (10005/100) ∧
    |(1000 : ℚ) * 100| / 10 = 10000 ∧ (50 : ℚ) / 10000 = 1/200 := by
  refine ⟨?_, by norm_num, by norm_num⟩
  have h := claim_C1_calculateCurrentPrice_formula
    { size := some 1000, entry_price := some 100, leverage := some 10,
      is_long := some true, pnl := some 50 }
    100 1000 10 50 rfl (by norm_num) rfl (by norm_num) rfl (by norm_num) rfl
  rw [h]
  norm_num [jsTruthyB]

/-- Claim C2: the recommendation decision rule.  With `bullishScore` and
`bearishScore` the sums of the strengths of the emitted bullish and
bearish signals, the call is LONG / SHORT / HOLD with confidence
`min((diff)/2.5×100, 95)` (or the fixed 40), rounded to the nearest
integer. -/
theorem claim_C2_generateAIRecommendation_decision
    (winRate avgSmartPnL longPercentage shortPercentage totalVolume
      avgLeverage avgEntryPrice : ℚ) (totalPositions : ℕ) :
    generateAIRecommendation winRate avgSmartPnL longPercentage
        shortPercentage totalVolume avgLeverage avgEntryPrice totalPositions =
      (let signals := recommendationSignals winRate avgSmartPnL longPercentage
        shortPercentage totalVolume avgLeverage avgEntryPrice totalPositions
      let bullishScore := signalScore "bullish" signals
      let bearishScore := signalScore "bearish" signals
      if bullishScore > bearishScore + 3/10 then
        ("LONG", jsRound (min ((bullishScore - bearishScore) / (5/2) * 100) 95))
      else if bearishScore > bullishScore + 3/10 then
        ("SHORT", jsRound (min ((bearishScore - bullishScore) / (5/2) * 100) 95))
      else ("HOLD", 40)) := by
  have h40 : jsRound 40 = 40 := by norm_num [jsRound]
  unfold generateAIRecommendation
  simp only [h40]

/-- Claim C3: the wallet-aggregation scenario (three positions with PnL
+5000, +3000, −1000, all active) yields total PnL 7000, win rate 200/3,
three active and zero closed positions, and rating C; and the rating is
the ordered first-match rule over win rate and total PnL. -/
theorem claim_C3_walletData_scenario_and_rating :
    (walletData
      [{ address := some "W", pnl := some 5000, status := some "active" },
       { address := some "W", pnl := some 3000, status := some "active" },
       { address := some "W", pnl := some (-1000), status := some "active" }]).map
        (fun w => (w.totalPnL, w.winRate, w.activePositions, w.closedTrades,
          w.rating))
      = [(7000, 200/3, 3, 0, "C")] ∧
    ∀ winRate totalPnL : ℚ,
      walletRating winRate totalPnL =
        if winRate ≥ 80 ∧ totalPnL > 10000 then "A"
        else if winRate ≥ 70 ∧ totalPnL > 5000 then "B"
        else if winRate ≥ 60 ∧ totalPnL > 0 then "C"
        else if winRate ≥ 40 then "D"
        else "F" := by
  constructor
  · norm_num +decide [walletData, walletStep, walletFinalize, walletRating,
      jsTruthyS, getD0, mapGet, mapSet]
  · intro winRate totalPnL
    rfl

/-- Claim C4 (code bug): the per-asset max-drawdown walk has no guard for
a zero peak.  On the single-position sequence with pnl −100 the step with
peak 0 divides a positive numerator by `Math.abs(0)`, so the asset's
`maxDrawdown` is `Infinity`, not 0 as the spec's guard would give. -/
theorem claim_C4_maxDrawdown_infinite_on_negative_start :
    (analytics (fun _ => 0) 0
      [{ asset := some "XYZ", pnl := some (-100) }]).assetAnalysis.map
        (fun a => a.maxDrawdown) = [EJ.inf] ∧
    assetMaxDrawdown [-100] = EJ.inf := by
  constructor
  · norm_num +decide [analytics, assetAnalysisOf, assetMapFold, assetStep, assetAccUpdate,
      assetFinalize, jsTruthyS, jsTruthyB, getD0, mapGet, mapSet,
      assetMaxDrawdown, maxDrawdownStep, ejMul, ejDiv, ejBgt,
      List.insertionSort]
  · norm_num [assetMaxDrawdown, maxDrawdownStep, ejMul, ejDiv, ejBgt]

/-- Claim C5 (code bug): on a non-empty sequence in which no position has
an asset symbol, `assetAnalysis` is empty, the unguarded
`Math.max(...[])` in `drawdownRisk` is `-Infinity`, and the composite
risk score is `-Infinity` — not in [0, 100]. -/
theorem claim_C5_riskScore_negInf_without_assets :
    (analytics (fun _ => 0) 0 [{ pnl := some 0 }]).riskMetrics.riskScore
      = EJ.ninf := by
  norm_num [analytics, riskMetricsOf, assetAnalysisOf, assetMapFold, assetStep, assetAccUpdate,
    jsTruthyS, getD0, sentimentVolatility, sentimentAvgPnL, pnlValuesOf,
    ejMul, ejDiv, ejAdd, ejMin, ejMaxList, ejMax, ejSqrt, ejAbs, ejOrZero,
    List.insertionSort]

/-- Claim C6 (code bug): an asset with a single position (well inside the
smart-money bounds) receives no AI recommendation, because the
`totalPositions >= 1` push is nested inside the
`smartMoneyPositions.length >= 3` guard. -/
theorem claim_C6_no_recommendation_below_three_smart_positions :
    aiRecommendationAssets [{ asset := some "BTC", pnl := some 0 }] = [] ∧
    (assetAnalysisOf [{ asset := some "BTC", pnl := some 0 }]).map
      (fun a => (a.asset, a.totalPositions)) = [("BTC", 1)] := by
  constructor
  · norm_num +decide [aiRecommendationAssets, assetAnalysisOf, assetMapFold,
      assetStep, assetAccUpdate, assetFinalize, jsTruthyS, jsTruthyB, getD0, mapGet, mapSet,
      smartMoneyFilter, List.insertionSort]
  · norm_num +decide [assetAnalysisOf, assetMapFold, assetStep, assetAccUpdate, assetFinalize,
      jsTruthyS, jsTruthyB, getD0, mapGet, mapSet, List.insertionSort]

/-- Counterexample to claim C7: on a position with negative size the two
dashboard variants disagree — part_000 (with `Math.abs`) returns +0.5,
part_002 (without it) returns −0.5. -/
theorem claim_C7_counterexample :
    part000.calculateCorrectPnlPercentage
      { size := some (-1000), entry_price := some 100, leverage := some 10,
        pnl := some 50 } = some (1/2) ∧
    part002.calculateCorrectPnlPercentage
      { size := some (-1000), entry_price := some 100, leverage := some 10,
        pnl := some 50 } = some (-1/2) ∧
    part000.calculateCorrectPnlPercentage
      { size := some (-1000), entry_price := some 100, leverage := some 10,
        pnl := some 50 } ≠
    part002.calculateCorrectPnlPercentage
      { size := some (-1000), entry_price := some 100, leverage := some 10,
        pnl := some 50 } := by
  have h1 : part000.calculateCorrectPnlPercentage
      { size := some (-1000), entry_price := some 100, leverage := some 10,
        pnl := some 50 } = some (1/2) := by
    norm_num [part000.calculateCorrectPnlPercentage,
      part000.calculateInitialValue, jsFalsyQ, getD0]
    simp
  have h2 : part002.calculateCorrectPnlPercentage
      { size := some (-1000), entry_price := some 100, leverage := some 10,
        pnl := some 50 } = some (-1/2) := by
    norm_num [part002.calculateCorrectPnlPercentage,
      part002.calculateInitialValue, jsFalsyQ, getD0]
    simp
  refine ⟨h1, h2, ?_⟩
  rw [h1, h2]
  norm_num

/-- Claim C7 as amended: with size, entry price and leverage present and
non-zero and pnl present, part_000 returns
`(pnl / (|size| × entry_price / leverage)) × 100`, part_002 returns
`(pnl / (size × entry_price / leverage)) × 100`, and the two variants
agree on every position with positive size. -/
theorem claim_C7_amended (p : Position) (sz ep lev pnl : ℚ)
    (hsz : p.size = some sz) (hsz0 : sz ≠ 0)
    (hep : p.entry_price = some ep) (hep0 : ep ≠ 0)
    (hlev : p.leverage = some lev) (hlev0 : lev ≠ 0)
    (hpnl : p.pnl = some pnl) :
    part000.calculateCorrectPnlPercentage p =
      some (pnl / (|sz| * ep / lev) * 100) ∧
    part002.calculateCorrectPnlPercentage p =
      some (pnl / (sz * ep / lev) * 100) ∧
    (0 < sz →
      part000.calculateCorrectPnlPercentage p =
        part002.calculateCorrectPnlPercentage p) := by
  have habs : |sz| ≠ 0 := abs_ne_zero.mpr hsz0
  have h000 : part000.calculateCorrectPnlPercentage p =
      some (pnl / (|sz| * ep / lev) * 100) := by
    simp [part000.calculateCorrectPnlPercentage, part000.calculateInitialValue,
      jsFalsyQ, getD0, hsz, hep, hlev, hpnl, hsz0, hep0, hlev0,
      div_ne_zero (mul_ne_zero habs hep0) hlev0]
  have h002 : part002.calculateCorrectPnlPercentage p =
      some (pnl / (sz * ep / lev) * 100) := by
    simp [part002.calculateCorrectPnlPercentage, part002.calculateInitialValue,
      jsFalsyQ, getD0, hsz, hep, hlev, hpnl, hsz0, hep0, hlev0,
      div_ne_zero (mul_ne_zero hsz0 hep0) hlev0]
  refine ⟨h000, h002, fun hpos => ?_⟩
  rw [h000, h002, abs_of_pos hpos]

/-- Witness for the amended C7: on a positive-size position both variants
return the same percentage, +0.5. -/
theorem claim_C7_amended_witness :
    part000.calculateCorrectPnlPercentage
      { size := some 1000, entry_price := some 100, leverage := some 10,
        pnl := some 50 } =
    part002.calculateCorrectPnlPercentage
      { size := some 1000, entry_price := some 100, leverage := some 10,
        pnl := some 50 } ∧
    part000.calculateCorrectPnlPercentage
      { size := some 1000, entry_price := some 100, leverage := some 10,
        pnl := some 50 } = some (1/2) := by
  have h := claim_C7_amended
    { size := some 1000, entry_price := some 100, leverage := some 10,
      pnl := some 50 }
    1000 100 10 50 rfl (by norm_num) rfl (by norm_num) rfl (by norm_num) rfl
  refine ⟨h.2.2 (by norm_num), ?_⟩
  rw [h.1]
  norm_num

/-- Claim C9: on the empty position sequence the analytics pass returns
its documented empty-state constants — neutral sentiment with zero
percentages, empty asset / pattern / recommendation lists, and zero
numeric aggregates — with every extended-number field a finite 0 (so
never `NaN` or `Infinity`); the embedding is a total function, so no
exception is possible. -/
theorem claim_C9_empty_snapshot (sqrtQ : ℚ → ℚ) (t : ℤ) :
    analytics sqrtQ t [] = emptyAnalytics ∧
    emptyAnalytics.marketSentiment.sentiment = "neutral" ∧
    emptyAnalytics.marketSentiment.bullish = 0 ∧
    emptyAnalytics.marketSentiment.bearish = 0 ∧
    emptyAnalytics.marketSentiment.confidence = 0 ∧
    emptyAnalytics.marketSentiment.volatility = .fin 0 ∧
    emptyAnalytics.assetAnalysis = [] ∧
    emptyAnalytics.unusualPatterns = [] ∧
    emptyAnalytics.usualPatterns = [] ∧
    emptyAnalytics.aiRecommendations = [] ∧
    emptyAnalytics.riskMetrics.riskScore = .fin 0 ∧
    emptyAnalytics.performanceMetrics.totalPnL = 0 ∧
    emptyAnalytics.performanceMetrics.winRate = 0 ∧
    emptyAnalytics.performanceMetrics.avgPnL = .fin 0 ∧
    emptyAnalytics.performanceMetrics.sharpeRatio = 0 ∧
    emptyAnalytics.performanceMetrics.maxDrawdown = 0 ∧
    emptyAnalytics.performanceMetrics.profitFactor = 0 ∧
    emptyAnalytics.performanceMetrics.avgHoldingTime = 0 := by
  refine ⟨by simp [analytics], rfl, rfl, rfl, rfl, rfl, rfl, rfl, rfl, rfl,
    rfl, rfl, rfl, rfl, rfl, rfl, rfl, rfl⟩

/-- Filtering a pattern rule's output for a different type label yields
nothing, whether or not the rule fired. -/
theorem filter_patternRule_ne (l : List Position) (ty sig ty2 : String)
    (hne : ty ≠ ty2) :
    (patternRule l ty sig).filter (fun pat => pat.type = ty2) = [] := by
  unfold patternRule
  split <;> simp [hne]

/-- Filtering a pattern rule's output for its own type label yields its
single record exactly when the rule fired. -/
theorem filter_patternRule_self (l : List Position) (ty sig : String) :
    (patternRule l ty sig).filter (fun pat => pat.type = ty) =
      if l.length > 0 then
        [{ type := ty, count := l.length, significance := sig }]
      else [] := by
  unfold patternRule
  split <;> simp

/-- Claim C8: if the only positions with leverage above 50 are two
positions of asset XYZ with leverage 80 and 90, the pattern battery
emits exactly one "ultra high leverage" pattern with count 2 and,
independently, exactly one "extreme leverage" pattern with count 2 —
the `> 75` and `> 50` rules fire on the same positions without being
merged. -/
theorem claim_C8_leverage_patterns (t : ℤ) (ps : List Position)
    (p₁ p₂ : Position)
    (hfil : ps.filter (fun p => getD0 p.leverage > 50) = [p₁, p₂])
    (h₁a : p₁.asset = some "XYZ") (h₁l : p₁.leverage = some 80)
    (h₂a : p₂.asset = some "XYZ") (h₂l : p₂.leverage = some 90) :
    (unusualPatternsOf t ps).filter
        (fun pat => pat.type = "Ultra High Leverage Trading (>75x)") =
      [{ type := "Ultra High Leverage Trading (>75x)", count := 2,
         significance := "high" }] ∧
    (unusualPatternsOf t ps).filter
        (fun pat => pat.type = "Extreme Leverage Trading") =
      [{ type := "Extreme Leverage Trading", count := 2,
         significance := "high" }] := by
  have h75 : ps.filter (fun p => getD0 p.leverage > 75) = [p₁, p₂] := by
    have hcong : ps.filter (fun p => getD0 p.leverage > 75) =
        ps.filter (fun p => decide (getD0 p.leverage > 75) &&
          decide (getD0 p.leverage > 50)) := by
      apply List.filter_congr
      intro p _
      by_cases h : getD0 p.leverage > 75
      · have h50 : getD0 p.leverage > 50 := lt_trans (by norm_num) h
        simp [h, h50]
      · simp [h]
    rw [hcong, ← List.filter_filter, hfil]
    have e₁ : getD0 p₁.leverage = 80 := by rw [h₁l]; rfl
    have e₂ : getD0 p₂.leverage = 90 := by rw [h₂l]; rfl
    norm_num [e₁, e₂]
  have hl75 : (ps.filter (fun p => getD0 p.leverage > 75)).length = 2 := by
    rw [h75]; rfl
  have hl50 : (ps.filter (fun p => getD0 p.leverage > 50)).length = 2 := by
    rw [hfil]; rfl
  constructor
  · simp +decide [unusualPatternsOf, List.filter_append,
      filter_patternRule_ne, filter_patternRule_self, hl75]
  · simp +decide [unusualPatternsOf, List.filter_append,
      filter_patternRule_ne, filter_patternRule_self, hl50]

/-- Witness for C8: a concrete three-position sequence (XYZ at 80x, XYZ
at 90x, BTC at 10x) produces exactly the two leverage patterns, each
with count 2. -/
theorem claim_C8_witness :
    (unusualPatternsOf 0
      [{ asset := some "XYZ", leverage := some 80 },
       { asset := some "XYZ", leverage := some 90 },
       { asset := some "BTC", leverage := some 10 }]).filter
        (fun pat => pat.type = "Ultra High Leverage Trading (>75x)") =
      [{ type := "Ultra High Leverage Trading (>75x)", count := 2,
         significance := "high" }] ∧
    (unusualPatternsOf 0
      [{ asset := some "XYZ", leverage := some 80 },
       { asset := some "XYZ", leverage := some 90 },
       { asset := some "BTC", leverage := some 10 }]).filter
        (fun pat => pat.type = "Extreme Leverage Trading") =
      [{ type := "Extreme Leverage Trading", count := 2,
         significance := "high" }] := by
  apply claim_C8_leverage_patterns 0
    [{ asset := some "XYZ", leverage := some 80 },
     { asset := some "XYZ", leverage := some 90 },
     { asset := some "BTC", leverage := some 10 }]
    { asset := some "XYZ", leverage := some 80 }
    { asset := some "XYZ", leverage := some 90 }
    (by norm_num [getD0]) rfl rfl rfl rfl

/-- `mapGet` on `nil`. -/
theorem mapGet_nil {α : Type} (k : String) :
    mapGet ([] : List (String × α)) k = none := rfl

/-- `mapGet` on `cons`. -/
theorem mapGet_cons {α : Type} (kv : String × α) (tl : List (String × α))
    (k : String) :
    mapGet (kv :: tl) k = if kv.1 = k then some kv.2 else mapGet tl k := by
  by_cases h : kv.1 = k <;> simp [mapGet, List.find?_cons, h]

/-- `mapGet` after `mapSet` at the same key returns the stored value. -/
theorem mapGet_mapSet_self {α : Type} (l : List (String × α)) (k : String)
    (v : α) : mapGet (mapSet l k v) k = some v := by
  unfold mapSet
  split
  case isTrue h =>
    induction l with
    | nil => simp at h
    | cons kv tl ih =>
      by_cases hk : kv.1 = k
      · simp [List.map_cons, mapGet_cons, hk]
      · have h' : tl.any (fun kv => kv.1 = k) := by
          simpa [List.any_cons, hk] using h
        simpa [List.map_cons, mapGet_cons, hk] using ih h'
  case isFalse h =>
    induction l with
    | nil => simp [mapGet_cons, mapGet_nil]
    | cons kv tl ih =>
      have hk : ¬ kv.1 = k := by
        intro hkk
        exact h (by simp [List.any_cons, hkk])
      have h' : ¬ tl.any (fun kv => kv.1 = k) = true := by
        intro htl
        exact h (by simp [List.any_cons, htl])
      simpa [List.cons_append, mapGet_cons, hk] using ih h'

/-- `mapGet` after `mapSet` at a different key is unchanged. -/
theorem mapGet_mapSet_ne {α : Type} (l : List (String × α)) (k k' : String)
    (v : α) (hne : k' ≠ k) : mapGet (mapSet l k v) k' = mapGet l k' := by
  unfold mapSet
  split
  case isTrue h =>
    clear h
    induction l with
    | nil => rfl
    | cons kv tl ih =>
      rw [List.map_cons, mapGet_cons, mapGet_cons]
      by_cases hk : kv.1 = k
      · have h1 : ¬ (k, v).1 = k' := fun hh => hne hh.symm
        have h2 : ¬ kv.1 = k' := fun hh => hne (hh.symm.trans hk)
        rw [if_pos hk, if_neg h1, if_neg h2]
        exact ih
      · rw [if_neg hk]
        by_cases hk' : kv.1 = k'
        · rw [if_pos hk', if_pos hk']
        · rw [if_neg hk', if_neg hk']
          exact ih
  case isFalse h =>
    clear h
    induction l with
    | nil =>
      have : ¬ (k, v).1 = k' := fun hh => hne hh.symm
      simp [mapGet_cons, mapGet_nil, this]
    | cons kv tl ih =>
      rw [List.cons_append, mapGet_cons, mapGet_cons]
      by_cases hk' : kv.1 = k'
      · rw [if_pos hk', if_pos hk']
      · rw [if_neg hk', if_neg hk']
        exact ih

/-- Generic counting invariant of the `assetMap` fold: any ℕ-valued field
that starts at 0 on a fresh accumulator and is bumped by `assetAccUpdate`
exactly when `g` holds of the position ends up counting the positions
with the given (non-empty) asset symbol satisfying `g`. -/
theorem assetFold_count (f : AssetSummary → ℕ) (g : Position → Bool)
    (hf0 : ∀ s : String, f { asset := s } = 0)
    (hupd : ∀ acc p, f (assetAccUpdate acc p) = f acc + (if g p then 1 else 0))
    (ps : List Position) (m : List (String × AssetSummary)) (a : String)
    (ha : a ≠ "") :
    ((mapGet (ps.foldl assetStep m) a).elim 0 f) =
      ((mapGet m a).elim 0 f) +
        ps.countP (fun p => decide (p.asset = some a) && g p) := by
  induction ps generalizing m with
  | nil => simp
  | cons p ps ih =>
    rw [List.foldl_cons, ih (assetStep m p), List.countP_cons]
    have hstep : ((mapGet (assetStep m p) a).elim 0 f) =
        ((mapGet m a).elim 0 f) +
          (if (decide (p.asset = some a) && g p) = true then 1 else 0) := by
      cases hpo : p.asset with
      | none =>
        have hm : assetStep m p = m := by simp [assetStep, hpo, jsTruthyS]
        simp [hm, hpo]
      | some s =>
        by_cases hs : s = ""
        · have hm : assetStep m p = m := by
            simp [assetStep, hpo, jsTruthyS, hs]
          have hsa : ¬ s = a := fun hh => ha (hh.symm.trans hs)
          simp [hm, hpo, hsa]
        · have hm : assetStep m p =
              mapSet m s
                (assetAccUpdate ((mapGet m s).getD { asset := s }) p) := by
            simp [assetStep, hpo, jsTruthyS, hs]
          rw [hm]
          by_cases hk : s = a
          · subst hk
            rw [mapGet_mapSet_self, Option.elim_some, hupd]
            have hpa : p.asset = some s := hpo
            cases hmga : mapGet m s with
            | none => simp [hmga, hf0, hpa]
            | some acc => simp [hmga, hpa]
          · rw [mapGet_mapSet_ne _ _ _ _ (fun hh => hk hh.symm)]
            simp [hpo, hk]
    rw [hstep]
    ring

/-- At snapshot level only explicit `is_long === true` / `=== false`
positions are counted, so the two counts sum to the number of positions
whose direction is present at all. -/
theorem snapshot_direction_counts (ps : List Position) :
    longPositionsCount ps + shortPositionsCount ps =
      ps.countP (fun p => p.is_long ≠ none) := by
  unfold longPositionsCount shortPositionsCount
  induction ps with
  | nil => rfl
  | cons p ps ih =>
    rw [List.countP_cons, List.filter_cons, List.filter_cons]
    cases hp : p.is_long with
    | none => simpa using ih
    | some b => cases b <;> simp at ih ⊢ <;> omega

/-- Claim C10: in the per-asset aggregation a truthy `is_long` increments
`longCount` and anything else (including an absent field) increments
`shortCount`, so `longCount + shortCount` — and hence `totalPositions` —
equals the number of positions carrying the asset symbol; unlike the
snapshot-level sentiment counts, which only count explicit `true` /
`false` directions. -/
theorem claim_C10_direction_counting (ps : List Position) (a : String)
    (acc : AssetSummary) (ha : a ≠ "")
    (h : mapGet (assetMapFold ps) a = some acc) :
    acc.longCount =
      ps.countP (fun p => decide (p.asset = some a) && jsTruthyB p.is_long) ∧
    acc.shortCount =
      ps.countP (fun p => decide (p.asset = some a) && ! jsTruthyB p.is_long) ∧
    acc.longCount + acc.shortCount = ps.countP (fun p => p.asset = some a) ∧
    (∀ s ∈ assetAnalysisOf ps, s.totalPositions = s.longCount + s.shortCount) ∧
    longPositionsCount ps + shortPositionsCount ps =
      ps.countP (fun p => p.is_long ≠ none) := by
  unfold assetMapFold at h
  have hlong := assetFold_count (fun s => s.longCount)
    (fun p => jsTruthyB p.is_long) (fun _ => rfl)
    (fun acc p => by
      by_cases hg : jsTruthyB p.is_long <;> simp [assetAccUpdate, hg])
    ps [] a ha
  have hshort := assetFold_count (fun s => s.shortCount)
    (fun p => ! jsTruthyB p.is_long) (fun _ => rfl)
    (fun acc p => by
      by_cases hg : jsTruthyB p.is_long <;> simp [assetAccUpdate, hg])
    ps [] a ha
  have htotal := assetFold_count (fun s => s.longCount + s.shortCount)
    (fun _ => true) (fun _ => rfl)
    (fun acc p => by
      by_cases hg : jsTruthyB p.is_long <;> simp [assetAccUpdate, hg, Nat.add_assoc, Nat.add_comm 1])
    ps [] a ha
  rw [h, mapGet_nil] at hlong hshort htotal
  simp only [Option.elim_some, Option.elim_none, Nat.zero_add] at hlong hshort htotal
  refine ⟨hlong, hshort, ?_, ?_, snapshot_direction_counts ps⟩
  · rw [htotal]
    apply List.countP_congr
    intro p _
    simp
  · intro s hs
    unfold assetAnalysisOf at hs
    rw [List.mem_insertionSort] at hs
    obtain ⟨acc', _, rfl⟩ := List.mem_map.mp hs
    simp [assetFinalize]

/-- Witness for C10: in a three-position snapshot (asset A long, asset A
with no direction, asset B short) asset A counts one long and one short
— the direction-less position is counted as short — while the
snapshot-level counts see only the two explicit directions. -/
theorem claim_C10_witness :
    List.countP (fun p => decide (p.asset = some "A") && jsTruthyB p.is_long)
      ([{ asset := some "A", is_long := some true }, { asset := some "A" },
        { asset := some "B", is_long := some false }] : List Position) = 1 ∧
    List.countP (fun p => decide (p.asset = some "A") && ! jsTruthyB p.is_long)
      ([{ asset := some "A", is_long := some true }, { asset := some "A" },
        { asset := some "B", is_long := some false }] : List Position) = 1 ∧
    List.countP (fun p => p.asset = some "A")
      ([{ asset := some "A", is_long := some true }, { asset := some "A" },
        { asset := some "B", is_long := some false }] : List Position) = 2 ∧
    longPositionsCount
        [{ asset := some "A", is_long := some true }, { asset := some "A" },
         { asset := some "B", is_long := some false }] +
      shortPositionsCount
        [{ asset := some "A", is_long := some true }, { asset := some "A" },
         { asset := some "B", is_long := some false }] =
      List.countP (fun p => p.is_long ≠ none)
        ([{ asset := some "A", is_long := some true }, { asset := some "A" },
          { asset := some "B", is_long := some false }] : List Position) := by
  have hacc : mapGet (assetMapFold
      [{ asset := some "A", is_long := some true }, { asset := some "A" },
       { asset := some "B", is_long := some false }]) "A" =
      some { asset := "A", longCount := 1, shortCount := 1, totalPnL := 0,
             avgEntryPrice := 0, totalVolume := 0,
             positions :=
               [{ asset := some "A", is_long := some true },
                { asset := some "A" }],
             winRate := 0, avgLeverage := 0, maxDrawdown := .fin 0,
             sentiment := "", totalPositions := 0 } := by
    norm_num +decide [assetMapFold, assetStep, assetAccUpdate, jsTruthyS,
      jsTruthyB, getD0, mapGet, mapSet]
  have h := claim_C10_direction_counting
    [{ asset := some "A", is_long := some true }, { asset := some "A" },
     { asset := some "B", is_long := some false }] "A"
    { asset := "A", longCount := 1, shortCount := 1, totalPnL := 0,
      avgEntryPrice := 0, totalVolume := 0,
      positions :=
        [{ asset := some "A", is_long := some true }, { asset := some "A" }],
      winRate := 0, avgLeverage := 0, maxDrawdown := .fin 0,
      sentiment := "", totalPositions := 0 }
    (by decide) hacc
  exact ⟨h.1.symm, h.2.1.symm, h.2.2.1.symm, h.2.2.2.2⟩
